import Mathlib

/-!
Verification of the viralvid360 ffmpeg processing service against its
natural-language specification.

The embedding below is a shallow model of the JavaScript sources:

* `src/server.js` (the v4.1 service): environment reading, the S3/R2 client
  TLS configuration, the style→filter mapping of `processVideoCLI`, the
  concatenated ffmpeg shell command, the CDN URL derivation, and the entire
  `/process` request pipeline (validation, pre-flight checks, temp-file
  workspace, download, transcode, upload, response, cleanup).
* `src/unnamed/part_003` (an earlier variant): the `downloadToTmp` helper's
  https agent configuration.
* `src/unnamed/part_010` (another variant): the `/process` endpoint whose
  upload failure is swallowed inside a try/catch.

External effects (HTTP fetch results, file-system write/read success,
ffmpeg exit status, upload success, generated temp-file names) are supplied
by an explicit `Oracle`, so one pipeline run is a pure function of the
environment, the oracle, and the request body.  JavaScript `undefined`
is modelled by `Option.none`, and JS string falsiness (`!s`) for the
request fields by `strFalsy`.
-/

deriving instance DecidableEq for Except

/-- JS truthiness test `!s` for a string-or-undefined value:
`undefined` and the empty string are falsy. -/
def strFalsy : Option String → Bool
  | none => true
  | some s => s = ""

/-- JS template-literal rendering of a string-or-undefined value:
`undefined` prints as "undefined". -/
def jsShow : Option String → String
  | none => "undefined"
  | some s => s

/-- Environment configuration read by `src/server.js` at startup. -/
structure Env where
  r2Endpoint : Option String
  r2Bucket : Option String
  r2PublicBaseUrl : Option String
  r2AccessKeyId : Option String
  r2SecretAccessKey : Option String
  nodeTlsRejectUnauthorized : Option String
  ffmpegReady : Bool
deriving DecidableEq

/-- `src/server.js` lines 34-54: the S3 client is constructed (s3 non-null)
iff `R2_ENDPOINT && R2_ACCESS_KEY_ID && R2_SECRET_ACCESS_KEY` are all set
(truthy).  `R2_BUCKET` and `R2_PUBLIC_BASE_URL` are not required. -/
def s3Configured (e : Env) : Bool :=
  !strFalsy e.r2Endpoint && !strFalsy e.r2AccessKeyId && !strFalsy e.r2SecretAccessKey

/-- `src/server.js` line 45: the S3 client option
`tls: { rejectUnauthorized: NODE_TLS_REJECT_UNAUTHORIZED !== '0' }`.
Certificate validation on the upload connection is enabled iff the
environment variable differs from the string "0". -/
def s3TlsRejectUnauthorized (v : Option String) : Bool :=
  v != some "0"

/-- `src/unnamed/part_003` lines 40-44 (`downloadToTmp`): the download
agent is constructed as `new https.Agent({ rejectUnauthorized: false })`
unconditionally, so certificate validation on the source fetch of that
variant is always disabled. -/
def p3DownloadRejectUnauthorized : Bool := false

/-- Request body of `POST /process` in `src/server.js` line 153:
`const { inputUrl, outputKey, style = 'cinematic', intensity = 0.5 } = req.body`.
`intensity` is a JSON number; its value is never read again by the code,
so its numeric type is immaterial and it is modelled as an `Option Int`. -/
structure ProcessBody where
  inputUrl : Option String
  outputKey : Option String
  style : Option String
  intensity : Option Int
deriving DecidableEq

/-- Destructuring default of `src/server.js` line 153: an absent `style`
becomes the string "cinematic". -/
def styleOf (style : Option String) : String :=
  style.getD "cinematic"

/-- The own keys of the `filters` object literal of `processVideoCLI`
(`src/server.js` lines 118-126). -/
def filtersOwn (style : String) : Option String :=
  if style = "cinematic" then some "eq=contrast=1.2:brightness=0.1:saturation=1.1"
  else if style = "vibrant" then some "eq=contrast=1.3:saturation=1.5"
  else if style = "vintage" then some "curves=vintage,vignette"
  else if style = "bw" then some "hue=s=0"
  else if style = "default" then some "scale=1920:1080"
  else none

/-- Property names every plain object literal inherits from
`Object.prototype`.  JavaScript property access `filters[name]`
traverses the prototype chain, so for these names it yields a truthy
non-string value (a built-in function, or the prototype object itself
for `__proto__`) and the `|| filters.default` fallback does not fire. -/
def objectProtoNames : List String :=
  ["constructor", "hasOwnProperty", "isPrototypeOf", "propertyIsEnumerable",
   "toLocaleString", "toString", "valueOf", "__proto__",
   "__defineGetter__", "__defineSetter__", "__lookupGetter__", "__lookupSetter__"]

/-- The JS value of `filters[style] || filters.default`: either a filter
string (an own entry, or the `default` entry) or a truthy value
inherited from `Object.prototype`. -/
inductive FilterVal where
  | filterStr (s : String)
  | protoVal (name : String)
deriving DecidableEq

/-- The lookup `filters[style] || filters.default` of `src/server.js`
line 126 with JavaScript semantics: an own key yields its (truthy)
filter string; an `Object.prototype` property name yields the truthy
inherited value, so the fallback does not fire; any other name yields
`undefined` and falls back to the `default` entry. -/
def filterFor (style : String) : FilterVal :=
  match filtersOwn style with
  | some s => .filterStr s
  | none =>
    if style ∈ objectProtoNames then .protoVal style
    else .filterStr "scale=1920:1080"

/-- Template-literal rendering of the looked-up value (the `${filter}`
interpolation): a string renders as itself; the inherited
`Object.prototype` entries render as Node prints them — `[object Object]`
for the `__proto__` accessor's object, and
`function <name>() \x7b [native code] \x7d` for the built-in methods,
where `constructor` is the `Object` function. -/
def FilterVal.render : FilterVal → String
  | .filterStr s => s
  | .protoVal name =>
    if name = "__proto__" then "[object Object]"
    else if name = "constructor" then "function Object() \x7b [native code] \x7d"
    else "function " ++ name ++ "() \x7b [native code] \x7d"

/-- `src/server.js` line 127: the ffmpeg command is assembled as one
template string
`${ffmpegPath} -i "${inputPath}" -vf "${filter}" -c:v libx264 -preset ultrafast -c:a copy "${outputPath}" -y`,
the looked-up filter value stringified into it. -/
def mkFfmpegCmd (ffmpegPath inputPath outputPath style : String) : String :=
  ffmpegPath ++ " -i \"" ++ inputPath ++ "\" -vf \"" ++ (filterFor style).render ++
    "\" -c:v libx264 -preset ultrafast -c:a copy \"" ++ outputPath ++ "\" -y"

/-- How a child process is started: either a single shell command string
(`exec`) or an explicit program/argument vector (`spawn`). -/
inductive Invocation where
  | shellExec (cmd : String)
  | spawnArgv (prog : String) (args : List String)
deriving DecidableEq

/-- Whether an invocation is an explicit argument-vector invocation. -/
def Invocation.isArgvVector : Invocation → Bool
  | .spawnArgv _ _ => true
  | .shellExec _ => false

/-- `src/server.js` lines 127-135: `processVideoCLI` runs the external tool
via `execAsync(ffmpegCmd, ...)`, i.e. a shell command string, never an
argument vector. -/
def processVideoInvocation (ffmpegPath inputPath outputPath style : String) : Invocation :=
  .shellExec (mkFfmpegCmd ffmpegPath inputPath outputPath style)

/-- Substring test helpers (executable, used to state what a concrete
response message does and does not contain). -/
def isPrefixOfChars : List Char → List Char → Bool
  | [], _ => true
  | _ :: _, [] => false
  | a :: as, b :: bs => a == b && isPrefixOfChars as bs

/-- `hasSubChars hay needle`: does `needle` occur contiguously in `hay`? -/
def hasSubChars : List Char → List Char → Bool
  | hay, needle =>
    isPrefixOfChars needle hay ||
      match hay with
      | [] => false
      | _ :: hs => hasSubChars hs needle

/-- String-level contiguous-substring test. -/
def hasSubstr (hay needle : String) : Bool :=
  hasSubChars hay.data needle.data

/-!
CDN URL derivation (`src/server.js` line 234):
`` `${R2_PUBLIC_BASE_URL}/${outputKey}`.replace(/([^:]\/)\/+/g, "$1") ``.

The JavaScript global regex replace is embedded character-exactly:
scanning left to right, whenever a character other than `:` is followed
by two or more slashes, the whole run of slashes after that character is
replaced by one slash, and scanning resumes after the consumed run.
`collapseGo` uses an explicit fuel argument (always called with at least
the length of the list) so that the function is structurally recursive
and kernel-computable.
-/

/-- One JS global-replace pass of `([^:]\/)\/+ -> $1`, fuelled. -/
def collapseGo : Nat → List Char → List Char
  | 0, l => l
  | _ + 1, [] => []
  | _ + 1, [c] => [c]
  | _ + 1, [c₁, c₂] => [c₁, c₂]
  | fuel + 1, c₁ :: c₂ :: c₃ :: rest =>
    if c₁ != ':' && c₂ == '/' && c₃ == '/' then
      c₁ :: '/' :: collapseGo fuel (rest.dropWhile (· == '/'))
    else
      c₁ :: collapseGo fuel (c₂ :: c₃ :: rest)

/-- The regex replace on a character list. -/
def collapseChars (l : List Char) : List Char :=
  collapseGo l.length l

/-- `src/server.js` line 234: the CDN URL returned on success. -/
def cdnUrl (publicBase outputKey : String) : String :=
  ⟨collapseChars (publicBase ++ "/" ++ outputKey).data⟩

/-- No position of the list matches the regex `[^:]\/\/`:
nowhere does a non-colon character precede two slashes. -/
def noSite : List Char → Bool
  | c₁ :: c₂ :: c₃ :: rest =>
    !(c₁ != ':' && c₂ == '/' && c₃ == '/') && noSite (c₂ :: c₃ :: rest)
  | _ => true

/-- No two adjacent slashes anywhere in the list. -/
def noDouble : List Char → Bool
  | c₁ :: c₂ :: rest => !(c₁ == '/' && c₂ == '/') && noDouble (c₂ :: rest)
  | _ => true

/-- The last character exists and is neither a colon nor a slash. -/
def lastOkChars (l : List Char) : Bool :=
  match l.getLast? with
  | some c => c != ':' && c != '/'
  | none => false

/-- The first character, if any, is not a slash. -/
def headNotSlash (l : List Char) : Bool :=
  match l.head? with
  | some c => c != '/'
  | none => true

/-- A well-formed public base for the amended C6 statement: non-empty,
contains no collapse site (its only repeated slashes, if any, follow a
colon as in `https://`), and neither ends with a colon nor with a slash. -/
def goodBaseChars (l : List Char) : Bool :=
  !l.isEmpty && noSite l && lastOkChars l

/-- A well-formed storage key for the amended C6 statement: no internal
double slash and no leading slash. -/
def goodKeyChars (l : List Char) : Bool :=
  noDouble l && headNotSlash l

/-- String versions of the two side conditions. -/
def goodBase (s : String) : Bool := goodBaseChars s.data

/-- String version of `goodKeyChars`. -/
def goodKey (s : String) : Bool := goodKeyChars s.data

/-!
The `/process` pipeline of `src/server.js` (lines 152-280), as a pure
function of the environment, an oracle of external outcomes, and the
request body.
-/

/-- Outcome of `fetch(inputUrl, ...)` inside `downloadToBuffer`
(`src/server.js` lines 101-112): either a network-level error (the
`fetch` promise rejects) or an HTTP response with status, status text
and body.  `response.ok` is status 200-299. -/
inductive FetchOutcome where
  | netErr (msg : String)
  | resp (status : Nat) (statusText : String) (body : String)
deriving DecidableEq

/-- External outcomes of one pipeline run: the generated temp-file names,
whether each `tmp.fileSync` call succeeds, the fetch outcome, whether the
`fs.writeFile` / `fs.readFile` calls succeed, the result of the ffmpeg
child process (`execAsync`), the result of the `s3.send` upload, and
whether each `removeCallback` cleanup call succeeds (removal can throw,
which is why the source wraps both calls in a try/catch). -/
structure Oracle where
  tmpInName : String
  tmpOutName : String
  tmpInOk : Bool
  tmpOutOk : Bool
  fetch : FetchOutcome
  writeOk : Bool
  ffmpegRun : Except String Unit
  readOk : Bool
  upload : Except String Unit
  removeInOk : Bool
  removeOutOk : Bool
deriving DecidableEq

/-- The JSON response of `POST /process` (fields that the claims are
about). `cdnUrl`/`outputKey` are present only on the success path. -/
structure Response where
  status : Nat
  success : Bool
  error : Option String
  cdnUrl : Option String
  outputKey : Option String
deriving DecidableEq

/-- Result of the `try` block of the endpoint (everything from temp-file
creation to the successful upload), before the response and the cleanup
are produced: which resources were created, which stages ran, and either
the thrown error message or the computed CDN URL. -/
structure TryResult where
  err : Option String
  tmpInCreated : Bool
  tmpOutCreated : Bool
  fetchAttempted : Bool
  ffmpegInvoked : Bool
  ffmpegCmdUsed : Option String
  uploadAttempted : Bool
  cdn : Option String
deriving DecidableEq

/-- Observable trace of one request: the response, the temp files still
present on the filesystem after the run (and the scheduled cleanup), the
log of `removeCallback` release calls, and the stage flags. -/
structure RunTrace where
  response : Response
  files : List String
  releases : List String
  tmpInCreated : Bool
  tmpOutCreated : Bool
  workspaceAcquired : Bool
  fetchAttempted : Bool
  ffmpegInvoked : Bool
  ffmpegCmdUsed : Option String
  uploadAttempted : Bool
deriving DecidableEq

/-- Deleting a path from the modelled filesystem. -/
def removeFile (fs : List String) (name : String) : List String :=
  fs.filter (fun f => f ≠ name)

/-- The cleanup blocks of `src/server.js` lines 248-256 (success path,
both calls unguarded) and 263-270 (catch path, each call guarded by the
handle being non-null): both `removeCallback()` calls sit in one
try/catch, so if the first call throws (`removeInOk = false`), the
second is never attempted and its file stays on disk; a throwing call
also leaves its own file in place.  Returns the surviving filesystem and
the log of `removeCallback` invocations. -/
def cleanupBoth (o : Oracle) (fs : List String) (doIn doOut : Bool) :
    List String × List String :=
  if doIn then
    if o.removeInOk then
      let fs₁ := removeFile fs o.tmpInName
      if doOut then
        if o.removeOutOk then
          (removeFile fs₁ o.tmpOutName, [o.tmpInName, o.tmpOutName])
        else
          (fs₁, [o.tmpInName, o.tmpOutName])
      else
        (fs₁, [o.tmpInName])
    else
      -- first removeCallback throws: caught, second call skipped
      (fs, [o.tmpInName])
  else
    if doOut then
      if o.removeOutOk then
        (removeFile fs o.tmpOutName, [o.tmpOutName])
      else
        (fs, [o.tmpOutName])
    else
      (fs, [])

/-- The `try` block of `src/server.js` lines 201-231, step by step:
create `tmpIn` and `tmpOut`, download the source (throwing
`Download failed: HTTP <status> <statusText>` on a non-2xx status),
write the buffer, run ffmpeg through `processVideoCLI` (which wraps a
failure as `FFmpeg processing failed: <msg>`), read the output, upload
to R2, and finally derive the CDN URL. -/
def tryBlock (env : Env) (o : Oracle) (outputKey : String) (style : Option String) :
    TryResult :=
  if !o.tmpInOk then
    { err := some "tmp file creation failed", tmpInCreated := false,
      tmpOutCreated := false, fetchAttempted := false, ffmpegInvoked := false,
      ffmpegCmdUsed := none, uploadAttempted := false, cdn := none }
  else if !o.tmpOutOk then
    { err := some "tmp file creation failed", tmpInCreated := true,
      tmpOutCreated := false, fetchAttempted := false, ffmpegInvoked := false,
      ffmpegCmdUsed := none, uploadAttempted := false, cdn := none }
  else
    match o.fetch with
    | .netErr m =>
      { err := some m, tmpInCreated := true, tmpOutCreated := true,
        fetchAttempted := true, ffmpegInvoked := false, ffmpegCmdUsed := none,
        uploadAttempted := false, cdn := none }
    | .resp st stx _body =>
      if !(200 ≤ st && st < 300) then
        { err := some ("Download failed: HTTP " ++ toString st ++ " " ++ stx),
          tmpInCreated := true, tmpOutCreated := true, fetchAttempted := true,
          ffmpegInvoked := false, ffmpegCmdUsed := none,
          uploadAttempted := false, cdn := none }
      else if !o.writeOk then
        { err := some "file write failed", tmpInCreated := true,
          tmpOutCreated := true, fetchAttempted := true, ffmpegInvoked := false,
          ffmpegCmdUsed := none, uploadAttempted := false, cdn := none }
      else
        match o.ffmpegRun with
        | .error m =>
          { err := some ("FFmpeg processing failed: " ++ m),
            tmpInCreated := true, tmpOutCreated := true, fetchAttempted := true,
            ffmpegInvoked := true,
            ffmpegCmdUsed := some (mkFfmpegCmd "ffmpeg" o.tmpInName o.tmpOutName (styleOf style)),
            uploadAttempted := false, cdn := none }
        | .ok _ =>
          if !o.readOk then
            { err := some "file read failed", tmpInCreated := true,
              tmpOutCreated := true, fetchAttempted := true, ffmpegInvoked := true,
              ffmpegCmdUsed := some (mkFfmpegCmd "ffmpeg" o.tmpInName o.tmpOutName (styleOf style)),
              uploadAttempted := false, cdn := none }
          else
            match o.upload with
            | .error m =>
              { err := some m, tmpInCreated := true, tmpOutCreated := true,
                fetchAttempted := true, ffmpegInvoked := true,
                ffmpegCmdUsed := some (mkFfmpegCmd "ffmpeg" o.tmpInName o.tmpOutName (styleOf style)),
                uploadAttempted := true, cdn := none }
            | .ok _ =>
              { err := none, tmpInCreated := true, tmpOutCreated := true,
                fetchAttempted := true, ffmpegInvoked := true,
                ffmpegCmdUsed := some (mkFfmpegCmd "ffmpeg" o.tmpInName o.tmpOutName (styleOf style)),
                uploadAttempted := true,
                cdn := some (cdnUrl (jsShow env.r2PublicBaseUrl) outputKey) }

/-- The temp files created during a try-block run, in creation order. -/
def createdFiles (o : Oracle) (t : TryResult) : List String :=
  (if t.tmpInCreated then [o.tmpInName] else []) ++
    (if t.tmpOutCreated then [o.tmpOutName] else [])

/-- Trace of a request rejected by one of the three pre-flight checks
(`src/server.js` lines 162-196): nothing was created or attempted. -/
def preFlightTrace (status : Nat) (msg : String) : RunTrace :=
  { response := { status := status, success := false, error := some msg,
                  cdnUrl := none, outputKey := none },
    files := [], releases := [], tmpInCreated := false, tmpOutCreated := false,
    workspaceAcquired := false, fetchAttempted := false, ffmpegInvoked := false,
    ffmpegCmdUsed := none, uploadAttempted := false }

/-- The whole `POST /process` handler of `src/server.js` lines 152-280:
field validation, the ffmpeg-ready pre-flight, the `!s3` pre-flight,
then the try block; on success the 200 response with the CDN URL and a
cleanup releasing both temp files; on a thrown error the catch block's
guarded cleanup and the 500 response carrying `error.message`. -/
def runProcess (env : Env) (o : Oracle) (b : ProcessBody) : RunTrace :=
  if strFalsy b.inputUrl || strFalsy b.outputKey then
    preFlightTrace 400 "inputUrl and outputKey are required"
  else if !env.ffmpegReady then
    preFlightTrace 500 "FFmpeg not found or not executable"
  else if !s3Configured env then
    preFlightTrace 500 "R2 storage not configured"
  else
    let t := tryBlock env o (jsShow b.outputKey) b.style
    match t.err with
    | none =>
      -- success path: respond, then the `setImmediate` cleanup runs both
      -- removeCallback calls (unguarded) inside one try/catch
      let resp : Response :=
        { status := 200, success := true, error := none,
          cdnUrl := t.cdn, outputKey := b.outputKey }
      let cl := cleanupBoth o (createdFiles o t) true true
      { response := resp,
        files := cl.1,
        releases := cl.2,
        tmpInCreated := t.tmpInCreated, tmpOutCreated := t.tmpOutCreated,
        workspaceAcquired := t.tmpInCreated && t.tmpOutCreated,
        fetchAttempted := t.fetchAttempted, ffmpegInvoked := t.ffmpegInvoked,
        ffmpegCmdUsed := t.ffmpegCmdUsed, uploadAttempted := t.uploadAttempted }
    | some m =>
      -- catch path: guarded cleanup (`if (tmpIn) ...; if (tmpOut) ...`)
      -- inside one try/catch, then the 500 response
      let resp : Response :=
        { status := 500, success := false, error := some m,
          cdnUrl := none, outputKey := none }
      let cl := cleanupBoth o (createdFiles o t) t.tmpInCreated t.tmpOutCreated
      { response := resp,
        files := cl.1,
        releases := cl.2,
        tmpInCreated := t.tmpInCreated, tmpOutCreated := t.tmpOutCreated,
        workspaceAcquired := t.tmpInCreated && t.tmpOutCreated,
        fetchAttempted := t.fetchAttempted, ffmpegInvoked := t.ffmpegInvoked,
        ffmpegCmdUsed := t.ffmpegCmdUsed, uploadAttempted := t.uploadAttempted }

/-!
The `/process` endpoint of the `src/unnamed/part_010` variant (its lines
87-122), cited by claim C3: ffmpeg runs first, then the R2 upload is
attempted inside its own `try { ... } catch (e) { console.error(...) }`
whose failure is swallowed (`publicUrl` stays `null`), and the endpoint
responds `{ ok: true, ... }` regardless.
-/

/-- Environment of the part_010 variant: whether the conditional
`s3` client was constructed, and the URL configuration. -/
structure P10Env where
  s3Some : Bool
  publicBase : Option String
  endpoint : String
  bucket : String
deriving DecidableEq

/-- External outcomes for one part_010 run: ffmpeg exit and upload result. -/
structure P10Oracle where
  ffmpegRun : Except String Unit
  upload : Except String Unit
deriving DecidableEq

/-- Request body of the part_010 variant (`ffmpegArgs` is irrelevant to
the claims and omitted; the code uses it only as extra argv entries). -/
structure P10Body where
  inputUrl : Option String
  outputKey : Option String
deriving DecidableEq

/-- `normalizeOutputKey` of part_010: trim, strip one leading slash,
strip one leading `processed/`. -/
def normalizeOutputKey (k : String) : String :=
  let k₁ := k.trim
  let k₂ := if k₁.startsWith "/" then (k₁.toSubstring.drop 1).toString else k₁
  if k₂.startsWith "processed/" then (k₂.toSubstring.drop 10).toString else k₂

/-- `uploadToR2` of part_010: throws `R2 not configured` when `s3` is
null, otherwise attempts the `PutObjectCommand`; on success returns the
public URL (plain template join, no slash normalization). -/
def p10UploadToR2 (e : P10Env) (o : P10Oracle) (key : String) : Except String String :=
  if !e.s3Some then .error "R2 not configured"
  else
    match o.upload with
    | .error m => .error m
    | .ok _ =>
      match e.publicBase with
      | some b => .ok (b ++ "/" ++ key)
      | none => .ok (e.endpoint ++ "/" ++ e.bucket ++ "/" ++ key)

/-- Observable trace of one part_010 request. -/
structure P10Trace where
  status : Nat
  okField : Option Bool
  errorField : Option String
  publicUrlField : Option (Option String)
  ffmpegRan : Bool
  uploadAttempted : Bool
  uploadSucceeded : Bool
deriving DecidableEq

/-- The part_010 `/process` handler: validate `inputUrl`, normalize the
key, run ffmpeg (a non-zero exit is caught by the outer catch and
reported as a 500), then try the upload, swallowing its failure, and
respond `ok: true` with `publicUrl` possibly `null`. -/
def runP10 (e : P10Env) (o : P10Oracle) (b : P10Body) : P10Trace :=
  if strFalsy b.inputUrl then
    { status := 400, okField := none, errorField := some "inputUrl is required",
      publicUrlField := none, ffmpegRan := false, uploadAttempted := false,
      uploadSucceeded := false }
  else
    let cleanKey := normalizeOutputKey (b.outputKey.getD "output.mp4")
    match o.ffmpegRun with
    | .error m =>
      { status := 500, okField := none, errorField := some m,
        publicUrlField := none, ffmpegRan := true, uploadAttempted := false,
        uploadSucceeded := false }
    | .ok _ =>
      match p10UploadToR2 e o ("processed/" ++ cleanKey) with
      | .error _ =>
        -- the catch around `uploadToR2` only logs; `publicUrl` stays null
        { status := 200, okField := some true, errorField := none,
          publicUrlField := some none, ffmpegRan := true, uploadAttempted := true,
          uploadSucceeded := false }
      | .ok url =>
        { status := 200, okField := some true, errorField := none,
          publicUrlField := some (some url), ffmpegRan := true,
          uploadAttempted := true, uploadSucceeded := true }

/-!
Concrete fixtures used by witnesses and counterexamples: a fully
configured environment, a well-formed request, and oracles for a clean
run, a 404 fetch, and a failing upload.
-/

/-- A fully configured environment (all R2 variables set, ffmpeg ready). -/
def wEnv : Env :=
  { r2Endpoint := some "https://acc.r2.example", r2Bucket := some "vid",
    r2PublicBaseUrl := some "https://cdn.example.test", r2AccessKeyId := some "AK",
    r2SecretAccessKey := some "SK", nodeTlsRejectUnauthorized := none,
    ffmpegReady := true }

/-- A well-formed request body. -/
def wBody : ProcessBody :=
  { inputUrl := some "https://example.test/a.mp4", outputKey := some "out/a.mp4",
    style := none, intensity := some 1 }

/-- An oracle for a clean run: distinct temp names, a 200 fetch, and all
stages (including both cleanup removals) succeeding. -/
def wOracle : Oracle :=
  { tmpInName := "/tmp/a.mp4", tmpOutName := "/tmp/b.mp4", tmpInOk := true,
    tmpOutOk := true, fetch := .resp 200 "OK" "videobytes", writeOk := true,
    ffmpegRun := .ok (), readOk := true, upload := .ok (),
    removeInOk := true, removeOutOk := true }

/-- The clean oracle except that the source fetch returns HTTP 404. -/
def wOracle404 : Oracle :=
  { wOracle with fetch := .resp 404 "Not Found" "" }

/-- The clean oracle except that the R2 upload fails. -/
def wOracleUploadFail : Oracle :=
  { wOracle with upload := .error "R2 upload failed" }

/-- The clean oracle except that the first cleanup call
(`tmpIn.removeCallback()`) throws. -/
def wOracleRmInFail : Oracle :=
  { wOracle with removeInOk := false }

/-!
Theorems.  Each claim Cn of the specification audit is settled by one
theorem below (plus, where applicable, a counterexample theorem and a
closed witness).
-/

/-- Claim C1 (code bug): the spec demands that the transcoding tool be
invoked with an explicit ordered argument vector and never via a
concatenated shell string, but `processVideoCLI` (`src/server.js` lines
115-148) assembles one template string and runs it through
`exec`.  Evaluated at a concrete request (style "cinematic", the scratch
paths of a run), the invocation is a `shellExec` of the concatenated
command, and no invocation produced by this code is ever an argument
vector. -/
theorem c1_shell_string_invocation :
    processVideoInvocation "ffmpeg" "/tmp/in.mp4" "/tmp/out.mp4" "cinematic" =
      Invocation.shellExec
        "ffmpeg -i \"/tmp/in.mp4\" -vf \"eq=contrast=1.2:brightness=0.1:saturation=1.1\" -c:v libx264 -preset ultrafast -c:a copy \"/tmp/out.mp4\" -y" ∧
    ∀ (fp ip op st : String), (processVideoInvocation fp ip op st).isArgvVector = false := by
  exact ⟨by decide, fun fp ip op st => rfl⟩

/-- Claim C2 (code bug): the spec requires TLS certificate validation to
stay enabled on every outbound connection in every configuration, but
the S3 client of `src/server.js` line 45 disables it whenever
`NODE_TLS_REJECT_UNAUTHORIZED` is the string "0" (the configuration the
file's own comment instructs to set), and the `downloadToTmp` fetch of
`src/unnamed/part_003` disables it unconditionally. -/
theorem c2_tls_validation_disabled :
    s3TlsRejectUnauthorized (some "0") = false ∧
    p3DownloadRejectUnauthorized = false := by
  decide

/-- Claim C8 counterexample: two out-of-mapping cases do not use the
default filter `scale=1920:1080`.  A request with no `style` at all
resolves (via the destructuring default of `src/server.js` line 153) to
the named style "cinematic" and its `eq=...` filter; and an
`Object.prototype` property name such as "toString" yields the truthy
inherited built-in through the prototype chain, so `||` never falls
back and its stringification — not the default filter — reaches the
command.  Only a name that is neither an own key nor inherited falls
back to the default. -/
theorem c8_counterexample :
    styleOf none = "cinematic" ∧
    filterFor (styleOf none) =
      FilterVal.filterStr "eq=contrast=1.2:brightness=0.1:saturation=1.1" ∧
    filterFor (styleOf none) ≠ FilterVal.filterStr "scale=1920:1080" ∧
    filterFor "toString" = FilterVal.protoVal "toString" ∧
    filterFor "toString" ≠ FilterVal.filterStr "scale=1920:1080" ∧
    (filterFor "toString").render = "function toString() \x7b [native code] \x7d" ∧
    filterFor "nosuchstyle" = FilterVal.filterStr "scale=1920:1080" := by
  decide

/-- Claim C8 (amended): the transform style resolves through the fixed
five-entry own-key mapping of `processVideoCLI`.  An explicitly supplied
name that is neither an own key nor an `Object.prototype` property name
falls back to the default filter `scale=1920:1080` rather than failing;
an `Object.prototype` property name (constructor, toString,
hasOwnProperty, `__proto__`, ...) instead yields the truthy inherited
value — not the default filter; and a request with no style at all
resolves to the named style "cinematic" and uses that style's filter. -/
theorem c8_style_mapping :
    (∀ s : String,
        s ∉ (["cinematic", "vibrant", "vintage", "bw", "default"] : List String) →
        s ∉ objectProtoNames →
        filterFor s = FilterVal.filterStr "scale=1920:1080") ∧
    (∀ s : String, s ∈ objectProtoNames → filterFor s = FilterVal.protoVal s) ∧
    styleOf none = "cinematic" ∧
    filterFor (styleOf none) =
      FilterVal.filterStr "eq=contrast=1.2:brightness=0.1:saturation=1.1" := by
  refine ⟨?_, ?_, by decide, by decide⟩
  · intro s hs hp
    simp only [List.mem_cons, List.mem_singleton, not_or] at hs
    obtain ⟨h1, h2, h3, h4, h5⟩ := hs
    simp [filterFor, filtersOwn, h1, h2, h3, h4, h5, hp]
  · intro s hs
    fin_cases hs <;> decide

/-- Witness for C8: the name "sepia" is neither an own key nor inherited
and resolves to the default filter. -/
theorem c8_style_mapping_witness :
    ("sepia" : String) ∉
      (["cinematic", "vibrant", "vintage", "bw", "default"] : List String) ∧
    ("sepia" : String) ∉ objectProtoNames ∧
    filterFor "sepia" = FilterVal.filterStr "scale=1920:1080" :=
  ⟨by decide, by decide, c8_style_mapping.1 "sepia" (by decide) (by decide)⟩

/-- Claim C10 (confirmed, noninterference): two requests identical in
everything (environment, external outcomes, all other fields) except the
value of the accepted `intensity` field produce identical run traces —
in particular the same ffmpeg command string (`ffmpegCmdUsed`), the same
response, and the same filesystem effects.  `src/server.js` destructures
`intensity` at line 153 and never uses it again. -/
theorem c10_intensity_no_effect :
    ∀ (env : Env) (o : Oracle) (b : ProcessBody) (i₁ i₂ : Option Int),
      runProcess env o { b with intensity := i₁ } =
        runProcess env o { b with intensity := i₂ } := by
  intro env o b i₁ i₂
  cases b
  rfl

/-- Claim C7 (confirmed): a request with a missing source location or an
empty output identity is rejected by the field validation of
`src/server.js` lines 162-169 with the 400 validation response, before
the workspace is acquired and before any fetch is attempted: no temp
file is ever created and no network request is made. -/
theorem c7_validation_precedes_acquisition :
    ∀ (env : Env) (o : Oracle) (b : ProcessBody),
      b.inputUrl = none ∨ b.outputKey = some "" →
      (runProcess env o b).response.status = 400 ∧
      (runProcess env o b).response.success = false ∧
      (runProcess env o b).response.error = some "inputUrl and outputKey are required" ∧
      (runProcess env o b).tmpInCreated = false ∧
      (runProcess env o b).tmpOutCreated = false ∧
      (runProcess env o b).workspaceAcquired = false ∧
      (runProcess env o b).fetchAttempted = false ∧
      (runProcess env o b).files = [] := by
  intro env o b h
  have hv : (strFalsy b.inputUrl || strFalsy b.outputKey) = true := by
    rcases h with h | h <;> simp [strFalsy, h]
  simp [runProcess, hv, preFlightTrace]

/-- Witness for C7: a request with no `inputUrl` at all. -/
theorem c7_validation_precedes_acquisition_witness :
    ((none : Option String) = none ∨
      ({ inputUrl := none, outputKey := some "out/a.mp4", style := none,
         intensity := none : ProcessBody }).outputKey = some "") ∧
    (runProcess wEnv wOracle
        { inputUrl := none, outputKey := some "out/a.mp4", style := none,
          intensity := none }).response.status = 400 ∧
    (runProcess wEnv wOracle
        { inputUrl := none, outputKey := some "out/a.mp4", style := none,
          intensity := none }).tmpInCreated = false ∧
    (runProcess wEnv wOracle
        { inputUrl := none, outputKey := some "out/a.mp4", style := none,
          intensity := none }).fetchAttempted = false :=
  have h := c7_validation_precedes_acquisition wEnv wOracle
    { inputUrl := none, outputKey := some "out/a.mp4", style := none,
      intensity := none } (Or.inl rfl)
  ⟨Or.inl rfl, h.1, h.2.2.2.1, h.2.2.2.2.2.2.1⟩

/-- Claim C9 (confirmed): while the storage client is not configured
(any of endpoint, access key or secret key absent at startup, so `s3`
is null), no request ever acquires the workspace, fetches, or invokes
the transcoder; and any request that passes the field validation and the
ffmpeg-ready check fails with the dedicated 500
"R2 storage not configured" response (`src/server.js` lines 181-196). -/
theorem c9_unconfigured_storage_preflight :
    ∀ (env : Env) (o : Oracle) (b : ProcessBody),
      s3Configured env = false →
      ((runProcess env o b).tmpInCreated = false ∧
       (runProcess env o b).tmpOutCreated = false ∧
       (runProcess env o b).workspaceAcquired = false ∧
       (runProcess env o b).fetchAttempted = false ∧
       (runProcess env o b).ffmpegInvoked = false ∧
       (runProcess env o b).files = []) ∧
      (strFalsy b.inputUrl = false → strFalsy b.outputKey = false →
       env.ffmpegReady = true →
       (runProcess env o b).response.status = 500 ∧
       (runProcess env o b).response.success = false ∧
       (runProcess env o b).response.error = some "R2 storage not configured") := by
  intro env o b h
  by_cases h1 : (strFalsy b.inputUrl || strFalsy b.outputKey) = true
  · constructor
    · simp [runProcess, h1, preFlightTrace]
    · intro hiu hok
      rw [hiu, hok] at h1
      simp at h1
  · cases hf : env.ffmpegReady
    · constructor
      · simp [runProcess, h1, hf, preFlightTrace]
      · intro _ _ hr
        simp at hr
    · constructor
      · simp [runProcess, h1, hf, h, preFlightTrace]
      · intro _ _ _
        simp [runProcess, h1, hf, h, preFlightTrace]

/-- Witness for C9: the fully configured environment with the endpoint
removed is unconfigured, and a well-formed request then gets the
"R2 storage not configured" failure without any fetch. -/
theorem c9_unconfigured_storage_preflight_witness :
    s3Configured { wEnv with r2Endpoint := none } = false ∧
    (runProcess { wEnv with r2Endpoint := none } wOracle wBody).response.error =
      some "R2 storage not configured" ∧
    (runProcess { wEnv with r2Endpoint := none } wOracle wBody).fetchAttempted = false :=
  have h := c9_unconfigured_storage_preflight { wEnv with r2Endpoint := none }
    wOracle wBody (by decide)
  ⟨by decide, (h.2 (by decide) (by decide) (by decide)).2.2, h.1.2.2.2.1⟩

/-- Claim C4 counterexample: both cleanup calls sit in one try/catch
(`src/server.js` lines 248-256), so at a concrete successful run whose
first `removeCallback` throws, the second is never invoked (its release
count is 0) and both temp files remain on the filesystem — refuting
"released exactly once on every path, and neither path remains". -/
theorem c4_remove_failure_leaves_files :
    (runProcess wEnv wOracleRmInFail wBody).response.success = true ∧
    (runProcess wEnv wOracleRmInFail wBody).workspaceAcquired = true ∧
    (runProcess wEnv wOracleRmInFail wBody).releases.count
      wOracleRmInFail.tmpOutName = 0 ∧
    (runProcess wEnv wOracleRmInFail wBody).files =
      [wOracleRmInFail.tmpInName, wOracleRmInFail.tmpOutName] := by
  decide

set_option maxHeartbeats 3200000 in
/-- Claim C4 (amended): whenever a run acquires the scratch workspace
(both temp files) and the two `removeCallback` operations succeed, both
files are released exactly once after the run — on the success path by
the `setImmediate` cleanup of `src/server.js` lines 248-256 and on every
failure path by the catch cleanup of lines 263-270 — and no path leaves
either file on the filesystem (the post-run file list is empty for every
request, even one that never acquired the workspace).  Because both
calls share a single try/catch, a throwing first removal is caught and
logged but skips the second entirely: such a run never attempts the
output file's release and leaves both files on disk.  The hypothesis
that the two generated temp names differ is the `tmp` library's
uniqueness guarantee. -/
theorem c4_workspace_release :
    ∀ (env : Env) (o : Oracle) (b : ProcessBody),
      o.tmpInName ≠ o.tmpOutName →
      (o.removeInOk = true → o.removeOutOk = true →
        (runProcess env o b).files = [] ∧
        ((runProcess env o b).workspaceAcquired = true →
          (runProcess env o b).releases.count o.tmpInName = 1 ∧
          (runProcess env o b).releases.count o.tmpOutName = 1)) ∧
      (o.removeInOk = false → (runProcess env o b).workspaceAcquired = true →
        (runProcess env o b).releases.count o.tmpOutName = 0 ∧
        o.tmpInName ∈ (runProcess env o b).files ∧
        o.tmpOutName ∈ (runProcess env o b).files) := by
  intro env o b hne
  by_cases h1 : (strFalsy b.inputUrl || strFalsy b.outputKey) = true
  · simp [runProcess, h1, preFlightTrace]
  · cases hf : env.ffmpegReady
    · simp [runProcess, h1, hf, preFlightTrace]
    · by_cases hs : s3Configured env = true
      · obtain ⟨tin, tout, iok, ook, f, wok, fr, rok, up, rin, rout⟩ := o
        simp only at hne
        rcases f with m | ⟨st, stx, body⟩
        · cases iok <;> cases ook <;> cases wok <;> rcases fr with m2 | u2 <;>
            cases rok <;> rcases up with m3 | u3 <;> cases rin <;> cases rout <;>
            simp [runProcess, tryBlock, h1, hf, hs, preFlightTrace, createdFiles,
              cleanupBoth, removeFile, List.count_cons, hne, Ne.symm hne]
        · by_cases hst : (200 ≤ st && st < 300) = true <;>
            cases iok <;> cases ook <;> cases wok <;> rcases fr with m2 | u2 <;>
            cases rok <;> rcases up with m3 | u3 <;> cases rin <;> cases rout <;>
            simp [runProcess, tryBlock, h1, hf, hs, hst, preFlightTrace, createdFiles,
              cleanupBoth, removeFile, List.count_cons, hne, Ne.symm hne]
      · have hs' : s3Configured env = false := by
          cases hq : s3Configured env
          · rfl
          · exact absurd hq hs
        simp [runProcess, h1, hf, hs', preFlightTrace]

/-- Witness for C4: a run that acquires the workspace, fails at the
upload stage, and whose removals succeed, releases both distinct temp
files exactly once and leaves the filesystem empty. -/
theorem c4_workspace_release_witness :
    wOracleUploadFail.tmpInName ≠ wOracleUploadFail.tmpOutName ∧
    wOracleUploadFail.removeInOk = true ∧
    wOracleUploadFail.removeOutOk = true ∧
    (runProcess wEnv wOracleUploadFail wBody).files = [] ∧
    ((runProcess wEnv wOracleUploadFail wBody).workspaceAcquired = true →
      (runProcess wEnv wOracleUploadFail wBody).releases.count
        wOracleUploadFail.tmpInName = 1 ∧
      (runProcess wEnv wOracleUploadFail wBody).releases.count
        wOracleUploadFail.tmpOutName = 1) :=
  have h := (c4_workspace_release wEnv wOracleUploadFail wBody (by decide)).1
    (by decide) (by decide)
  ⟨by decide, by decide, by decide, h.1, h.2⟩

/-- Claim C5 counterexample: at a concrete run whose fetch returns HTTP
404, the failure response does not identify the failure with a kind
"FetchError" and a reason "non2xx" — the response carries only the plain
message `Download failed: HTTP 404 Not Found` (neither token occurs
anywhere in it), because `src/server.js` lines 258-279 return
`error.message` with no structured error taxonomy. -/
theorem c5_no_structured_fetch_error :
    (runProcess wEnv wOracle404 wBody).response.success = false ∧
    (runProcess wEnv wOracle404 wBody).response.error =
      some "Download failed: HTTP 404 Not Found" ∧
    hasSubstr "Download failed: HTTP 404 Not Found" "FetchError" = false ∧
    hasSubstr "Download failed: HTTP 404 Not Found" "non2xx" = false ∧
    (runProcess wEnv wOracle404 wBody).ffmpegInvoked = false ∧
    (runProcess wEnv wOracle404 wBody).uploadAttempted = false := by
  decide

/-- Claim C5 (amended): a request whose source fetch returns a non-2xx
HTTP status terminates with a 500 failure response whose error message
is the download failure text `Download failed: HTTP <status> <statusText>`
(not a structured `FetchError`/`non2xx` value), and neither the
transcoder nor the publisher is invoked. -/
theorem c5_fetch_failure_stops_run :
    ∀ (env : Env) (o : Oracle) (b : ProcessBody) (st : Nat) (stx bodyStr : String),
      strFalsy b.inputUrl = false → strFalsy b.outputKey = false →
      env.ffmpegReady = true → s3Configured env = true →
      o.tmpInOk = true → o.tmpOutOk = true →
      o.fetch = FetchOutcome.resp st stx bodyStr →
      (200 ≤ st && st < 300) = false →
      (runProcess env o b).response.status = 500 ∧
      (runProcess env o b).response.success = false ∧
      (runProcess env o b).response.error =
        some ("Download failed: HTTP " ++ toString st ++ " " ++ stx) ∧
      (runProcess env o b).ffmpegInvoked = false ∧
      (runProcess env o b).uploadAttempted = false := by
  intro env o b st stx bodyStr hiu hok hf hs hti hto hfetch hst
  simp [runProcess, tryBlock, hiu, hok, hf, hs, hti, hto, hfetch, hst, preFlightTrace]

/-- Witness for C5: the amended statement applied to the concrete 404 run. -/
theorem c5_fetch_failure_stops_run_witness :
    wOracle404.fetch = FetchOutcome.resp 404 "Not Found" "" ∧
    (runProcess wEnv wOracle404 wBody).response.status = 500 ∧
    (runProcess wEnv wOracle404 wBody).response.error =
      some ("Download failed: HTTP " ++ toString 404 ++ " " ++ "Not Found") ∧
    (runProcess wEnv wOracle404 wBody).ffmpegInvoked = false ∧
    (runProcess wEnv wOracle404 wBody).uploadAttempted = false :=
  have h := c5_fetch_failure_stops_run wEnv wOracle404 wBody 404 "Not Found" ""
    (by decide) (by decide) (by decide) (by decide) (by decide) (by decide)
    (by decide) (by decide)
  ⟨by decide, h.1, h.2.2.1, h.2.2.2.1, h.2.2.2.2⟩

/-- Claim C3 counterexample: in the `src/unnamed/part_010` variant, a
concrete run whose R2 upload fails is still answered `ok: true` (with a
null `publicUrl`), so an upload failure is reported as success there,
contradicting the claim that every upload failure yields a failure
response. -/
theorem c3_p10_success_on_failed_upload :
    (runP10 { s3Some := true, publicBase := some "https://cdn.example.test",
              endpoint := "https://acc.r2.example", bucket := "vid" }
        { ffmpegRun := Except.ok (), upload := Except.error "R2 upload failed" }
        { inputUrl := some "https://example.test/a.mp4",
          outputKey := some "out/a.mp4" }).okField = some true ∧
    (runP10 { s3Some := true, publicBase := some "https://cdn.example.test",
              endpoint := "https://acc.r2.example", bucket := "vid" }
        { ffmpegRun := Except.ok (), upload := Except.error "R2 upload failed" }
        { inputUrl := some "https://example.test/a.mp4",
          outputKey := some "out/a.mp4" }).uploadAttempted = true ∧
    (runP10 { s3Some := true, publicBase := some "https://cdn.example.test",
              endpoint := "https://acc.r2.example", bucket := "vid" }
        { ffmpegRun := Except.ok (), upload := Except.error "R2 upload failed" }
        { inputUrl := some "https://example.test/a.mp4",
          outputKey := some "out/a.mp4" }).uploadSucceeded = false ∧
    (runP10 { s3Some := true, publicBase := some "https://cdn.example.test",
              endpoint := "https://acc.r2.example", bucket := "vid" }
        { ffmpegRun := Except.ok (), upload := Except.error "R2 upload failed" }
        { inputUrl := some "https://example.test/a.mp4",
          outputKey := some "out/a.mp4" }).publicUrlField = some none := by
  decide

/-- Claim C3 (amended): in the main service (`src/server.js`) a success
response is returned only after the upload call succeeded — success
implies the upload was attempted and returned ok, and carries the derived
CDN URL — and every failure response carries no public URL; in the
`src/unnamed/part_010` variant a failed upload is (incorrectly) still
answered `ok: true`, but even there a non-null public URL is returned
only when the storage client exists and the upload succeeded. -/
theorem c3_url_only_after_upload :
    (∀ (env : Env) (o : Oracle) (b : ProcessBody),
      ((runProcess env o b).response.success = true →
        o.upload = Except.ok () ∧
        (runProcess env o b).uploadAttempted = true ∧
        (runProcess env o b).response.cdnUrl =
          some (cdnUrl (jsShow env.r2PublicBaseUrl) (jsShow b.outputKey))) ∧
      ((runProcess env o b).response.success = false →
        (runProcess env o b).response.cdnUrl = none)) ∧
    (∀ (e : P10Env) (o : P10Oracle) (b : P10Body) (u : String),
      (runP10 e o b).publicUrlField = some (some u) →
      e.s3Some = true ∧ o.upload = Except.ok () ∧
      (runP10 e o b).uploadSucceeded = true) := by
  constructor
  · intro env o b
    by_cases h1 : (strFalsy b.inputUrl || strFalsy b.outputKey) = true
    · simp [runProcess, h1, preFlightTrace]
    · cases hf : env.ffmpegReady
      · simp [runProcess, h1, hf, preFlightTrace]
      · by_cases hs : s3Configured env = true
        · obtain ⟨tin, tout, iok, ook, f, wok, fr, rok, up⟩ := o
          rcases f with m | ⟨st, stx, body⟩
          · cases iok <;> cases ook <;> cases wok <;> rcases fr with m2 | u2 <;>
              cases rok <;> rcases up with m3 | u3 <;>
              simp [runProcess, tryBlock, h1, hf, hs, preFlightTrace]
          · by_cases hst : (200 ≤ st && st < 300) = true <;>
              cases iok <;> cases ook <;> cases wok <;> rcases fr with m2 | u2 <;>
              cases rok <;> rcases up with m3 | u3 <;>
              simp [runProcess, tryBlock, h1, hf, hs, hst, preFlightTrace]
        · have hs' : s3Configured env = false := by
            cases hq : s3Configured env
            · rfl
            · exact absurd hq hs
          simp [runProcess, h1, hf, hs', preFlightTrace]
  · intro e o b u
    by_cases h1 : strFalsy b.inputUrl = true
    · simp [runP10, h1]
    · obtain ⟨fr, up⟩ := o
      cases hsome : e.s3Some <;> cases hpb : e.publicBase <;>
        rcases fr with m | u2 <;> rcases up with m3 | u3 <;>
        simp [runP10, p10UploadToR2, h1, hsome, hpb]

/-- Witness for C3: the failed-upload run of the main service reports
failure and carries no CDN URL. -/
theorem c3_url_only_after_upload_witness :
    (runProcess wEnv wOracleUploadFail wBody).response.success = false ∧
    (runProcess wEnv wOracleUploadFail wBody).response.cdnUrl = none :=
  ⟨by decide,
    (c3_url_only_after_upload.1 wEnv wOracleUploadFail wBody).2 (by decide)⟩

/-!
Infrastructure for claim C6: properties of the embedded JS regex replace
`([^:]\/)\/+ -> $1` (lemmas about `collapseGo`/`collapseChars`).
-/

theorem dropWhileLenLe (p : Char → Bool) :
    ∀ l : List Char, (l.dropWhile p).length ≤ l.length := by
  intro l
  induction l with
  | nil => simp
  | cons c cs ih =>
    by_cases h : p c = true
    · simp only [List.dropWhile_cons, h, if_true]
      exact Nat.le_succ_of_le ih
    · simp [List.dropWhile_cons, h]

theorem collapseGo_cons3 (f : Nat) (c₁ c₂ c₃ : Char) (rest : List Char) :
    collapseGo (f + 1) (c₁ :: c₂ :: c₃ :: rest) =
      if (c₁ != ':' && c₂ == '/' && c₃ == '/') = true then
        c₁ :: '/' :: collapseGo f (rest.dropWhile (· == '/'))
      else
        c₁ :: collapseGo f (c₂ :: c₃ :: rest) := rfl

theorem noSite_tail : ∀ (c : Char) (rest : List Char),
    noSite (c :: rest) = true → noSite rest = true := by
  intro c rest h
  match rest with
  | [] => rfl
  | [d] => rfl
  | d :: e :: r =>
    have h' : (!(c != ':' && d == '/' && e == '/') && noSite (d :: e :: r)) = true := h
    rw [Bool.and_eq_true] at h'
    exact h'.2

theorem noSite_win : ∀ (c₁ c₂ c₃ : Char) (r : List Char),
    noSite (c₁ :: c₂ :: c₃ :: r) = true →
    (c₁ != ':' && c₂ == '/' && c₃ == '/') = false := by
  intro c₁ c₂ c₃ r h
  have h' : (!(c₁ != ':' && c₂ == '/' && c₃ == '/') && noSite (c₂ :: c₃ :: r)) = true := h
  rw [Bool.and_eq_true, Bool.not_eq_true'] at h'
  exact h'.1

theorem lastOk_cons_cons (c d : Char) (cs : List Char) :
    lastOkChars (c :: d :: cs) = lastOkChars (d :: cs) := by
  simp [lastOkChars, List.getLast?_cons_cons]

theorem goodBase_tail : ∀ (c d : Char) (cs : List Char),
    goodBaseChars (c :: d :: cs) = true → goodBaseChars (d :: cs) = true := by
  intro c d cs h
  simp only [goodBaseChars, Bool.and_eq_true] at h ⊢
  obtain ⟨⟨_, hns⟩, hlast⟩ := h
  refine ⟨⟨by simp, noSite_tail c _ hns⟩, ?_⟩
  rw [lastOk_cons_cons] at hlast
  exact hlast

theorem goodBase_single (c : Char) (cs : List Char) :
    goodBaseChars (c :: cs) = true → cs = [] → (c != ':') = true ∧ (c != '/') = true := by
  intro h hcs
  subst hcs
  simp only [goodBaseChars, Bool.and_eq_true] at h
  have hl := h.2
  simp only [lastOkChars, List.getLast?_singleton, Bool.and_eq_true] at hl
  exact hl

theorem goodKey_parts : ∀ k : List Char, goodKeyChars k = true →
    noDouble k = true ∧ headNotSlash k = true := by
  intro k h
  rw [goodKeyChars, Bool.and_eq_true] at h
  exact h

theorem headNotSlash_false : ∀ (k₀ : Char) (k' : List Char),
    headNotSlash (k₀ :: k') = true → (k₀ == '/') = false := by
  intro k₀ k' h
  simp only [headNotSlash, List.head?_cons] at h
  simpa using h

theorem noSite_of_noDouble : ∀ l : List Char, noDouble l = true → noSite l = true := by
  intro l
  induction l with
  | nil => intro _; rfl
  | cons c cs ih =>
    intro h
    match cs, h, ih with
    | [], _, _ => rfl
    | [d], _, _ => rfl
    | d :: e :: r, h, ih =>
      have hdd : (!(c == '/' && d == '/') && noDouble (d :: e :: r)) = true := h
      rw [Bool.and_eq_true] at hdd
      have h2 := hdd.2
      have h2u : (!(d == '/' && e == '/') && noDouble (e :: r)) = true := h2
      rw [Bool.and_eq_true] at h2u
      have hde : (d == '/' && e == '/') = false := by
        rw [Bool.not_eq_true'] at h2u
        exact h2u.1
      show (!(c != ':' && d == '/' && e == '/') && noSite (d :: e :: r)) = true
      rw [Bool.and_eq_true]
      refine ⟨?_, ih h2⟩
      cases hq1 : d == '/' <;> cases hq2 : e == '/' <;> simp_all

theorem noSite_slash_cons : ∀ k : List Char, goodKeyChars k = true →
    noSite ('/' :: k) = true := by
  intro k hk
  match k with
  | [] => rfl
  | [k₀] => rfl
  | k₀ :: k₁ :: k'' =>
    show (!('/' != ':' && k₀ == '/' && k₁ == '/') && noSite (k₀ :: k₁ :: k'')) = true
    rw [Bool.and_eq_true]
    obtain ⟨hnd, hh⟩ := goodKey_parts _ hk
    refine ⟨?_, noSite_of_noDouble _ hnd⟩
    have h0 := headNotSlash_false _ _ hh
    simp [h0]

theorem noSite_seamhead : ∀ (c : Char) (k : List Char), goodKeyChars k = true →
    noSite (c :: '/' :: k) = true := by
  intro c k hk
  match k with
  | [] => rfl
  | k₀ :: k' =>
    show (!(c != ':' && '/' == '/' && k₀ == '/') && noSite ('/' :: k₀ :: k')) = true
    rw [Bool.and_eq_true]
    refine ⟨?_, noSite_slash_cons _ hk⟩
    have h0 := headNotSlash_false _ _ (goodKey_parts _ hk).2
    simp [h0]

theorem noSite_append : ∀ (b k : List Char),
    goodBaseChars b = true → goodKeyChars k = true →
    noSite (b ++ '/' :: k) = true := by
  intro b
  induction b with
  | nil =>
    intro k hb _
    simp [goodBaseChars] at hb
  | cons c cs ih =>
    intro k hb hk
    match cs, ih with
    | [], _ =>
      exact noSite_seamhead c k hk
    | [d], ih =>
      have hb' := goodBase_tail c d [] hb
      have htail := ih k hb' hk
      show (!(c != ':' && d == '/' && '/' == '/') && noSite (d :: '/' :: k)) = true
      rw [Bool.and_eq_true]
      refine ⟨?_, htail⟩
      have hd := (goodBase_single d [] hb' rfl).2
      have hd' : (d == '/') = false := by simpa using hd
      simp [hd']
    | d :: e :: r, ih =>
      have hb' := goodBase_tail c d (e :: r) hb
      have htail := ih k hb' hk
      show (!(c != ':' && d == '/' && e == '/') && noSite (d :: e :: (r ++ '/' :: k))) = true
      rw [Bool.and_eq_true]
      have hns : noSite (c :: d :: e :: r) = true := by
        simp only [goodBaseChars, Bool.and_eq_true] at hb
        exact hb.1.2
      refine ⟨by rw [Bool.not_eq_true']; exact noSite_win c d e r hns, htail⟩

theorem collapseGo_congr :
    ∀ (f₁ : Nat) (l : List Char) (f₂ : Nat),
      l.length ≤ f₁ → l.length ≤ f₂ → collapseGo f₁ l = collapseGo f₂ l := by
  intro f₁
  induction f₁ with
  | zero =>
    intro l f₂ h1 _
    have hl : l = [] := List.eq_nil_of_length_eq_zero (Nat.le_zero.mp h1)
    subst hl
    cases f₂ <;> rfl
  | succ f ih =>
    intro l f₂ h1 h2
    match l, h1, h2 with
    | [], _, _ => cases f₂ <;> rfl
    | [c], _, h2 =>
      cases f₂ with
      | zero => simp at h2
      | succ g => rfl
    | [c₁, c₂], _, h2 =>
      cases f₂ with
      | zero => simp at h2
      | succ g => rfl
    | c₁ :: c₂ :: c₃ :: rest, h1, h2 =>
      cases f₂ with
      | zero => simp at h2
      | succ g =>
        simp only [List.length_cons] at h1 h2
        have hd := dropWhileLenLe (· == '/') rest
        rw [collapseGo_cons3 f, collapseGo_cons3 g]
        by_cases hc : (c₁ != ':' && c₂ == '/' && c₃ == '/') = true
        · rw [if_pos hc, if_pos hc]
          have := ih (rest.dropWhile (· == '/')) g (by omega) (by omega)
          rw [this]
        · rw [if_neg hc, if_neg hc]
          have := ih (c₂ :: c₃ :: rest) g (by simp; omega) (by simp; omega)
          rw [this]

theorem noSite_collapseGo :
    ∀ (f : Nat) (l : List Char), l.length ≤ f → noSite l = true → collapseGo f l = l := by
  intro f
  induction f with
  | zero =>
    intro l h1 _
    have hl : l = [] := List.eq_nil_of_length_eq_zero (Nat.le_zero.mp h1)
    subst hl
    rfl
  | succ f ih =>
    intro l h1 hns
    match l, h1, hns with
    | [], _, _ => rfl
    | [c], _, _ => rfl
    | [c₁, c₂], _, _ => rfl
    | c₁ :: c₂ :: c₃ :: rest, h1, hns =>
      have hwin : (c₁ != ':' && c₂ == '/' && c₃ == '/') = false := noSite_win _ _ _ _ hns
      have htail : noSite (c₂ :: c₃ :: rest) = true := noSite_tail _ _ hns
      simp only [List.length_cons] at h1
      rw [collapseGo_cons3, if_neg (by simp [hwin])]
      have := ih (c₂ :: c₃ :: rest) (by simp; omega) htail
      rw [this]

theorem collapseChars_of_noSite (l : List Char) (h : noSite l = true) :
    collapseChars l = l :=
  noSite_collapseGo l.length l (Nat.le_refl _) h

theorem collapseGo_seam :
    ∀ (b : List Char) (t : List Char) (f : Nat),
      goodBaseChars b = true → (b ++ '/' :: '/' :: t).length ≤ f →
      collapseGo f (b ++ '/' :: '/' :: t) =
        b ++ '/' :: collapseChars (t.dropWhile (· == '/')) := by
  intro b
  induction b with
  | nil =>
    intro t f hb _
    simp [goodBaseChars] at hb
  | cons c cs ih =>
    intro t f hb hf
    match cs, ih with
    | [], _ =>
      simp only [List.cons_append, List.nil_append] at hf ⊢
      cases f with
      | zero => simp at hf
      | succ g =>
        obtain ⟨hc1, _⟩ := goodBase_single c [] hb rfl
        rw [collapseGo_cons3, if_pos (by simp [hc1])]
        have hlen : (t.dropWhile (· == '/')).length ≤ g := by
          have := dropWhileLenLe (· == '/') t
          simp only [List.length_cons] at hf
          omega
        rw [collapseGo_congr g _ (t.dropWhile (· == '/')).length hlen (Nat.le_refl _)]
        rfl
    | [d], ih =>
      simp only [List.cons_append, List.nil_append] at hf ⊢
      cases f with
      | zero => simp at hf
      | succ g =>
        have hb' := goodBase_tail c d [] hb
        have hd := (goodBase_single d [] hb' rfl).2
        have hd' : (d == '/') = false := by simpa using hd
        rw [collapseGo_cons3, if_neg (by simp [hd'])]
        have hrec := ih t g hb'
          (by simp only [List.cons_append, List.nil_append, List.length_cons] at hf ⊢; omega)
        simp only [List.cons_append, List.nil_append] at hrec
        rw [hrec]
    | d :: e :: r, ih =>
      simp only [List.cons_append] at hf ⊢
      cases f with
      | zero => simp at hf
      | succ g =>
        have hb' := goodBase_tail c d (e :: r) hb
        have hns : noSite (c :: d :: e :: r) = true := by
          simp only [goodBaseChars, Bool.and_eq_true] at hb
          exact hb.1.2
        have hwin := noSite_win c d e r hns
        rw [collapseGo_cons3, if_neg (by simp [hwin])]
        have hrec := ih t g hb'
          (by simp only [List.cons_append, List.length_cons, List.length_append] at hf ⊢; omega)
        simp only [List.cons_append] at hrec
        rw [hrec]

theorem collapseChars_seam (b t : List Char) (hb : goodBaseChars b = true) :
    collapseChars (b ++ '/' :: '/' :: t) =
      b ++ '/' :: collapseChars (t.dropWhile (· == '/')) :=
  collapseGo_seam b t _ hb (Nat.le_refl _)

theorem slashData : ("/" : String).data = ['/'] := rfl

theorem dataJoin (b k : String) : (b ++ "/" ++ k).data = b.data ++ '/' :: k.data := by
  rw [String.data_append, String.data_append, slashData]
  simp [List.append_assoc]

theorem goodKey_dropSlash (k : List Char) (hk : goodKeyChars k = true) :
    k.dropWhile (· == '/') = k := by
  match k with
  | [] => rfl
  | k₀ :: k' =>
    have h0 := headNotSlash_false k₀ k' (goodKey_parts _ hk).2
    simp [List.dropWhile_cons, h0]

theorem goodKey_collapse (k : List Char) (hk : goodKeyChars k = true) :
    collapseChars k = k :=
  collapseChars_of_noSite _ (noSite_of_noDouble _ (goodKey_parts _ hk).1)

/-- Claim C6 counterexample: the regex collapses every repeated slash not
preceded by a colon, not only the separating one, so for the storage key
`a//b.mp4` the returned URL is not the base joined with the key by one
separating slash — the key's own internal `//` is rewritten and the URL
names a different key than the one the object was uploaded under. -/
theorem c6_counterexample :
    cdnUrl "https://cdn.example.test" "a//b.mp4" = "https://cdn.example.test/a/b.mp4" ∧
    cdnUrl "https://cdn.example.test" "a//b.mp4" ≠
      "https://cdn.example.test" ++ "/" ++ "a//b.mp4" := by
  decide

/-- Claim C6 (amended): for every non-empty public base that contains no
collapse site of its own (its repeated slashes, if any, follow a colon as
in `https://`) and does not end in `:` or `/`, and every storage key with
no internal double slash and no leading slash beyond the optional one,
the returned URL equals the base joined with the key by exactly one
separating slash — whether or not the base carries a trailing slash and
whether or not the key carries a leading slash — and the derivation is a
pure function of base and key. -/
theorem c6_slash_normalization :
    ∀ b k : String, goodBase b = true → goodKey k = true →
      cdnUrl b k = b ++ "/" ++ k ∧
      cdnUrl (b ++ "/") k = b ++ "/" ++ k ∧
      cdnUrl b ("/" ++ k) = b ++ "/" ++ k ∧
      cdnUrl (b ++ "/") ("/" ++ k) = b ++ "/" ++ k := by
  intro b k hb hk
  have hbd : goodBaseChars b.data = true := hb
  have hkd : goodKeyChars k.data = true := hk
  have hjoin : (b ++ "/" ++ k).data = b.data ++ '/' :: k.data := dataJoin b k
  have hdrop : k.data.dropWhile (· == '/') = k.data := goodKey_dropSlash _ hkd
  have hcoll : collapseChars k.data = k.data := goodKey_collapse _ hkd
  refine ⟨?_, ?_, ?_, ?_⟩
  · apply String.ext
    show collapseChars ((b ++ "/" ++ k).data) = (b ++ "/" ++ k).data
    rw [hjoin]
    exact collapseChars_of_noSite _ (noSite_append _ _ hbd hkd)
  · apply String.ext
    show collapseChars (((b ++ "/") ++ "/" ++ k).data) = (b ++ "/" ++ k).data
    have h2 : ((b ++ "/") ++ "/" ++ k).data = b.data ++ '/' :: '/' :: k.data := by
      rw [String.data_append, String.data_append, String.data_append, slashData]
      simp [List.append_assoc]
    rw [h2, collapseChars_seam b.data _ hbd, hdrop, hcoll, hjoin]
  · apply String.ext
    show collapseChars ((b ++ "/" ++ ("/" ++ k)).data) = (b ++ "/" ++ k).data
    have h3 : (b ++ "/" ++ ("/" ++ k)).data = b.data ++ '/' :: '/' :: k.data := by
      rw [String.data_append, String.data_append, String.data_append, slashData]
      simp [List.append_assoc]
    rw [h3, collapseChars_seam b.data _ hbd, hdrop, hcoll, hjoin]
  · apply String.ext
    show collapseChars (((b ++ "/") ++ "/" ++ ("/" ++ k)).data) = (b ++ "/" ++ k).data
    have h4 : ((b ++ "/") ++ "/" ++ ("/" ++ k)).data =
        b.data ++ '/' :: '/' :: ('/' :: k.data) := by
      rw [String.data_append, String.data_append, String.data_append,
        String.data_append, slashData]
      simp [List.append_assoc]
    rw [h4, collapseChars_seam b.data _ hbd]
    have h5 : ('/' :: k.data).dropWhile (· == '/') = k.data := by
      simp [List.dropWhile_cons, hdrop]
    rw [h5, hcoll, hjoin]

/-- Witness for C6: base with a trailing slash and key with a leading
slash still join with exactly one separator. -/
theorem c6_slash_normalization_witness :
    goodBase "https://cdn.example.test" = true ∧ goodKey "out/a.mp4" = true ∧
    cdnUrl ("https://cdn.example.test" ++ "/") ("/" ++ "out/a.mp4") =
      "https://cdn.example.test" ++ "/" ++ "out/a.mp4" :=
  ⟨by decide, by decide,
    (c6_slash_normalization "https://cdn.example.test" "out/a.mp4"
      (by decide) (by decide)).2.2.2⟩
